import Mathlib

/-!
Shallow embedding of `src/KEY.js` of the webrider repository: the `Browser`
base class (capability-document builder and launch contract), together with a
model of the external `deepobject` dependency (`DO.get` / `DO.set`).

JavaScript objects are modelled as ordered association lists (insertion order
preserved, as in JS), JS `undefined` as `Option.none` where a lookup can miss
and as `Value.undef` where a value is produced.
-/

namespace Webrider

/-- A JSON-ish JavaScript value: the payloads stored in the session-parameters
document.  `obj` keeps fields in insertion order, as JavaScript objects do. -/
inductive Value where
  | undef : Value
  | null : Value
  | bool : Bool → Value
  | num : Int → Value
  | str : String → Value
  | obj : List (String × Value) → Value
  | arr : List Value → Value

/-- Lookup of a key in an object's field list (JS property read). -/
def objGet (fields : List (String × Value)) (k : String) : Option Value :=
  match fields with
  | [] => none
  | (k2, v) :: rest => if k2 = k then some v else objGet rest k

/-- JS property write on an object's field list: an existing key keeps its
position and gets the new value, a new key is appended at the end. -/
def objSet (fields : List (String × Value)) (k : String) (v : Value) : List (String × Value) :=
  match fields with
  | [] => [(k, v)]
  | (k2, v2) :: rest => if k2 = k then (k, v) :: rest else (k2, v2) :: objSet rest k v

/-- Read property `k` of a value: defined (only) when the value is an object
holding that key, mirroring that the source only ever reads path segments off
plain objects. -/
def getSeg (v : Value) (k : String) : Option Value :=
  match v with
  | .obj fields => objGet fields k
  | _ => none

/-- Splitting helper mirroring JavaScript `String.prototype.split('.')`:
returns the first dot-free run of characters and the list of the later
segments.  `''.split('.')` is `['']` and `'a..b'.split('.')` is
`['a','','b']`, both reproduced here. -/
def splitSegsAux : List Char → List Char × List (List Char)
  | [] => ([], [])
  | c :: cs =>
      if c = '.' then ([], (splitSegsAux cs).1 :: (splitSegsAux cs).2)
      else (c :: (splitSegsAux cs).1, (splitSegsAux cs).2)

/-- Embedding of `path.split('.')` as used by the deepobject dependency: the list of
dot-separated segments of a path string.  Always nonempty. -/
def splitPath (s : String) : List String :=
  String.mk (splitSegsAux s.data).1 :: ((splitSegsAux s.data).2.map String.mk)

/-- First dot-separated segment of a path string. -/
def firstSeg (s : String) : String :=
  String.mk (splitSegsAux s.data).1

namespace DO

/-- Modelled from the spec: the external `deepobject` dependency's deep get
(its source is not under `src/`).  Per §9 the operation splits the path into
ordered dot-separated segments and descends through nested mappings; a missing
key, or descent into a non-mapping, yields JS `undefined`, modelled as
`none`. -/
def getSegs : Value → List String → Option Value
  | v, [] => some v
  | v, k :: ks =>
      match getSeg v k with
      | none => none
      | some v2 => getSegs v2 ks

/-- Embedding of `DO.get(obj, path)` of the deepobject dependency (modelled from the spec,
see `DO.getSegs`). -/
def get (v : Value) (path : String) : Option Value :=
  getSegs v (splitPath path)

/-- Modelled from the spec: the external `deepobject` dependency's deep set
(its source is not under `src/`).  Per §9 it descends along the segments,
"creating intermediate mapping nodes on demand", and writes the value at the
final segment; an intermediate that is not a mapping is replaced by a fresh
mapping node. -/
def setSegs : Value → List String → Value → Value
  | _, [], newVal => newVal
  | v, [k], newVal =>
      match v with
      | .obj fields => .obj (objSet fields k newVal)
      | _ => .obj [(k, newVal)]
  | v, k :: k2 :: ks, newVal =>
      match v with
      | .obj fields =>
          let child := (objGet fields k).getD (.obj [])
          .obj (objSet fields k (setSegs child (k2 :: ks) newVal))
      | _ => .obj [(k, setSegs (.obj []) (k2 :: ks) newVal)]

/-- Embedding of `DO.set(obj, path, value)` of the deepobject dependency (modelled from the
spec, see `DO.setSegs`). -/
def set (v : Value) (path : String) (newVal : Value) : Value :=
  setSegs v (splitPath path) newVal

end DO

/-- The options object accepted by `Browser.run` (src/KEY.js lines 261-272). -/
structure RunOptions where
  port : Option Int
  args : List String
  env : List (String × String)
  stdio : Option String

/-- Outcome of the asynchronous launch operation: the promise either resolves
with a value or is rejected with a spawn failure.  The base class's `run`
only ever produces `resolved Value.undef`; `spawnFailure` is the spec's
vocabulary (§7 ProcessLaunchError/SpawnFailure), needed to state what the
code does NOT do. -/
inductive RunResult where
  | resolved : Value → RunResult
  | spawnFailure : RunResult

/-- The error thrown by `setSpecificKey` when the browser has no
`specificKey` (src/KEY.js line 233, message "setSpecificKey called for a
browser that doesn\x27t support them"); the spec calls it ConfigurationError. -/
inductive ConfigurationError where
  | vendorSpecificUnsupported : ConfigurationError

/-- The `Browser` base class state (src/KEY.js lines 95-273).  The
constructor initialises `sessionParameters`, `name`, `specificKey` and
`executable`; the field `_executable` does not exist until `setExecutable`
creates it, modelled as an `Option` that starts out `none`. -/
structure Browser where
  sessionParameters : Value
  name : String
  specificKey : Option String
  executable : Option String
  _executable : Option String

/-- Constructor `new Browser()` (src/KEY.js lines 133-144): seeds the empty capability
document, sets `name = 'browser'`, `specificKey = null`, `executable = null`. -/
def Browser.new : Browser :=
  { sessionParameters :=
      .obj [("capabilities", .obj [("alwaysMatch", .obj []), ("firstMatch", .arr [])])]
  , name := "browser"
  , specificKey := none
  , executable := none
  , _executable := none }

/-- JS truthiness of a number: `!n` is `true` exactly when `n` is `0`. -/
def jsNotInt (n : Int) : Bool := n = 0

/-- JavaScript strict equality `===` between a Boolean and a Number: always
`false`, the two operands having different types. -/
def strictEqBoolInt (_b : Bool) (_n : Int) : Bool := false

/-- Embedding of `Array.prototype.indexOf` over the `firstMatch` array with a string
argument: the index of the first element strictly equal (`===`) to the
string, `-1` if none.  An object element is never `===` a string; a string
element is `===` it exactly when the characters agree. -/
def jsStrictEqStr (v : Value) (s : String) : Bool :=
  match v with
  | .str s2 => s2 = s
  | _ => false

/-- See `jsStrictEqStr`. -/
def jsIndexOf (l : List Value) (s : String) : Int :=
  match l with
  | [] => -1
  | v :: rest =>
      if jsStrictEqStr v s then 0
      else
        let r := jsIndexOf rest s
        if r = -1 then -1 else r + 1

/-- JS truthiness of `this.specificKey` negated: `!this.specificKey` is true
for `null` (modelled `none`) and for the empty string. -/
def jsFalsyKey : Option String → Bool
  | none => true
  | some s => s = ""

/-- Method `Browser.setAlwaysMatchKey(path, value, force)` (src/KEY.js lines
171-177).  The source takes the alias
`this.sessionParameters.capabilities.alwaysMatch` and mutates it in place via
`DO.set` when `force` or nothing exists at `path`; here the in-place mutation
becomes a functional write-back of the `alwaysMatch` subtree.  When the
document lacks the `capabilities.alwaysMatch` object spine (unreachable from
the constructor under the operations below) the call is modelled as leaving
the state unchanged.  The source default for `force` is `false`
(`setAlwaysMatchKeyForceDefault`). -/
def Browser.setAlwaysMatchKey (b : Browser) (path : String) (v : Value) (force : Bool) : Browser :=
  match b.sessionParameters with
  | .obj rootFields =>
      match objGet rootFields "capabilities" with
      | some (.obj capFields) =>
          match objGet capFields "alwaysMatch" with
          | some (.obj amFields) =>
              if force || (DO.get (.obj amFields) path).isNone then
                { b with sessionParameters :=
                    Value.obj (objSet rootFields "capabilities"
                      (.obj (objSet capFields "alwaysMatch"
                        (DO.set (.obj amFields) path v)))) }
              else b
          | _ => b
      | _ => b
  | _ => b

/-- Source default of the `force` parameter of `setAlwaysMatchKey`. -/
def setAlwaysMatchKeyForceDefault : Bool := false

/-- Method `Browser.addFirstMatch(name, value, force)` (src/KEY.js lines 190-195),
embedded with its defective guard kept intact: the source condition is
`force || !this...firstMatch.indexOf(name) === -1`, which JavaScript parses
as `force || ((!indexOf(name)) === -1)`; a Boolean is never strictly equal to
the number `-1`, so the second disjunct is always false and the push happens
exactly when `force` is true.  The source default for `force` is `false`. -/
def Browser.addFirstMatch (b : Browser) (name : String) (v : Value) (force : Bool) : Browser :=
  match b.sessionParameters with
  | .obj rootFields =>
      match objGet rootFields "capabilities" with
      | some (.obj capFields) =>
          match objGet capFields "firstMatch" with
          | some (.arr fm) =>
              if force || strictEqBoolInt (jsNotInt (jsIndexOf fm name)) (-1) then
                { b with sessionParameters :=
                    Value.obj (objSet rootFields "capabilities"
                      (.obj (objSet capFields "firstMatch"
                        (.arr (fm ++ [.obj [(name, v)]]))))) }
              else b
          | _ => b
      | _ => b
  | _ => b

/-- Source default of the `force` parameter of `addFirstMatch`. -/
def addFirstMatchForceDefault : Bool := false

/-- Method `Browser.setRootKey(path, value, force)` (src/KEY.js lines 211-216):
writes `value` at the dot-separated `path` rooted at the top of
`sessionParameters` when `force` or nothing exists there.  The source default
for `force` is `true` (`setRootKeyForceDefault`). -/
def Browser.setRootKey (b : Browser) (path : String) (v : Value) (force : Bool) : Browser :=
  if force || (DO.get b.sessionParameters path).isNone then
    { b with sessionParameters := DO.set b.sessionParameters path v }
  else b

/-- Source default of the `force` parameter of `setRootKey`. -/
def setRootKeyForceDefault : Bool := true

/-- Method `Browser.setSpecificKey(path, value, force)` (src/KEY.js lines 231-239):
throws when `!this.specificKey` (null or empty string); otherwise checks for
an existing value at the ROOT-level path `<specificKey>.<path>` but writes at
`capabilities.alwaysMatch.<specificKey>.<path>`.  A thrown error leaves the
document untouched.  The source default for `force` is `true`. -/
def Browser.setSpecificKey (b : Browser) (path : String) (v : Value) (force : Bool) :
    Except ConfigurationError Browser :=
  if jsFalsyKey b.specificKey then
    .error ConfigurationError.vendorSpecificUnsupported
  else
    match b.specificKey with
    | none => .error ConfigurationError.vendorSpecificUnsupported
    | some sk =>
        if force || (DO.get b.sessionParameters (sk ++ "." ++ path)).isNone then
          let newDoc := DO.set b.sessionParameters ("capabilities.alwaysMatch." ++ sk ++ "." ++ path) v
          .ok { b with sessionParameters := newDoc }
        else .ok b

/-- Source default of the `force` parameter of `setSpecificKey`. -/
def setSpecificKeyForceDefault : Bool := true

/-- Method `Browser.getSessionParameters()` (src/KEY.js lines 248-250): returns the
live document. -/
def Browser.getSessionParameters (b : Browser) : Value :=
  b.sessionParameters

/-- Method `Browser.setExecutable(executable)` (src/KEY.js lines 257-259): the body
is `this._executable = executable` — it assigns the field `_executable`, not
the field `executable` initialised by the constructor. -/
def Browser.setExecutable (b : Browser) (e : String) : Browser :=
  { b with _executable := some e }

/-- Method `Browser.run(options)` (src/KEY.js lines 271-272): `async run (options)
{}` — an empty async method; the returned promise always resolves with
`undefined`, whatever the state of the browser or the options. -/
def Browser.run (_b : Browser) (_options : RunOptions) : RunResult :=
  RunResult.resolved Value.undef


/-! ## Observers on the session-parameters document -/

/-- The field list of a value that is a mapping. -/
def asObj : Value → Option (List (String × Value))
  | .obj fields => some fields
  | _ => none

/-- The field list of the `capabilities` member of a browser's document,
when the document is a mapping holding `capabilities` as a mapping. -/
def capFieldsOf (b : Browser) : Option (List (String × Value)) :=
  (asObj b.sessionParameters).bind (fun rf => (objGet rf "capabilities").bind asObj)

/-- The `capabilities.alwaysMatch` member of a browser's document, when the
object spine exists. -/
def capAlwaysMatch (b : Browser) : Option Value :=
  (capFieldsOf b).bind (fun cf => objGet cf "alwaysMatch")

/-- The `capabilities.firstMatch` member of a browser's document, when the
object spine exists. -/
def capFirstMatch (b : Browser) : Option Value :=
  (capFieldsOf b).bind (fun cf => objGet cf "firstMatch")

/-- The value stored at the dot-separated `path` under
`capabilities.alwaysMatch`, when present. -/
def valueAtAM (b : Browser) (path : String) : Option Value :=
  match capAlwaysMatch b with
  | some am => DO.get am path
  | none => none

/-- Whether an optional value is present and a mapping. -/
def isObjOpt : Option Value → Bool
  | some (.obj _) => true
  | _ => false

/-- Whether an optional value is present and a sequence. -/
def isArrOpt : Option Value → Bool
  | some (.arr _) => true
  | _ => false

/-- The container-kind invariant of the spec (§3): `capabilities.alwaysMatch`
present as a mapping and `capabilities.firstMatch` present as a sequence. -/
def wfBrowser (b : Browser) : Bool :=
  isObjOpt (capAlwaysMatch b) && isArrOpt (capFirstMatch b)

/-- A Chrome-like concrete variant as described in the source's class comment
(src/KEY.js lines 116-127): `specificKey = 'chromeOptions'` and the seeded
default `chromeOptions.w3c = true` under `alwaysMatch`. -/
def chromeLike : Browser :=
  { sessionParameters :=
      Value.obj [("capabilities", Value.obj
        [("alwaysMatch", Value.obj [("chromeOptions", Value.obj [("w3c", Value.bool true)])]),
         ("firstMatch", Value.arr [])])]
  , name := "chrome"
  , specificKey := some "chromeOptions"
  , executable := none
  , _executable := none }

/-! ## Association-list and path lemmas -/

theorem objGet_objSet_self (l : List (String × Value)) (k : String) (v : Value) :
    objGet (objSet l k v) k = some v := by
  induction l with
  | nil => simp [objSet, objGet]
  | cons hd tl ih =>
      obtain ⟨k2, v2⟩ := hd
      by_cases h : k2 = k <;> simp [objSet, objGet, h, ih]

theorem objGet_objSet_ne (l : List (String × Value)) (k kq : String) (v : Value)
    (h : k ≠ kq) : objGet (objSet l k v) kq = objGet l kq := by
  induction l with
  | nil => simp [objSet, objGet, h]
  | cons hd tl ih =>
      obtain ⟨k2, v2⟩ := hd
      by_cases h2 : k2 = k
      · subst h2
        simp [objSet, objGet, h]
      · simp [objSet, objGet, h2, ih]

theorem splitSegsAux_capsAM (l : List Char) :
    splitSegsAux ("capabilities.alwaysMatch.".data ++ l)
      = ("capabilities".data, "alwaysMatch".data :: (splitSegsAux l).1 :: (splitSegsAux l).2) := rfl

theorem splitPath_capsAM (r : String) :
    splitPath ("capabilities.alwaysMatch." ++ r) = "capabilities" :: "alwaysMatch" :: splitPath r := by
  show splitPath (String.mk ("capabilities.alwaysMatch.".data ++ r.data)) = _
  unfold splitPath
  rw [show (String.mk ("capabilities.alwaysMatch.".data ++ r.data)).data
        = "capabilities.alwaysMatch.".data ++ r.data from rfl]
  rw [splitSegsAux_capsAM r.data]
  rfl

theorem splitPath_eq_cons (s : String) :
    splitPath s = firstSeg s :: ((splitSegsAux s.data).2.map String.mk) := rfl

/-- Writing then reading the same path: `DO.get` after `DO.set` along the
same segment list yields the written value. -/
theorem getSegs_setSegs : ∀ (segs : List String) (v x : Value),
    DO.getSegs (DO.setSegs v segs x) segs = some x
  | [], _, _ => rfl
  | [k], v, x => by
      cases v <;> simp [DO.setSegs, DO.getSegs, getSeg, objGet_objSet_self, objGet]
  | k :: k2 :: ks, v, x => by
      cases v <;>
        simp [DO.setSegs, DO.getSegs, getSeg, objGet_objSet_self, objGet] <;>
        exact getSegs_setSegs (k2 :: ks) _ x

theorem get_set_same (v x : Value) (p : String) :
    DO.get (DO.set v p x) p = some x :=
  getSegs_setSegs (splitPath p) v x

/-- Lemma: `DO.setSegs` along a nonempty segment list always produces a mapping. -/
theorem setSegs_isObj : ∀ (k : String) (ks : List String) (v x : Value),
    ∃ fields, DO.setSegs v (k :: ks) x = Value.obj fields := by
  intro k ks v x
  match ks with
  | [] => cases v <;> simp [DO.setSegs]
  | k2 :: ks2 => cases v <;> simp [DO.setSegs]

/-- Lemma: `DO.setSegs` on a mapping root writes through `objSet` at the head
segment. -/
theorem setSegs_obj_cons (rf : List (String × Value)) (k : String) (ks : List String) (x : Value) :
    ∃ y, DO.setSegs (Value.obj rf) (k :: ks) x = Value.obj (objSet rf k y) := by
  match ks with
  | [] => exact ⟨x, rfl⟩
  | k2 :: ks2 => exact ⟨_, rfl⟩

/-! ## Claims -/

/-- Claim C7: for a newly constructed variant, before any setter call,
`getSessionParameters()` contains `capabilities.alwaysMatch` present as an
(empty) mapping and `capabilities.firstMatch` present as an empty
sequence. -/
theorem fresh_browser_empty_capabilities :
    Browser.new.getSessionParameters
      = Value.obj [("capabilities",
          Value.obj [("alwaysMatch", Value.obj []), ("firstMatch", Value.arr [])])]
  ∧ capAlwaysMatch Browser.new = some (Value.obj [])
  ∧ capFirstMatch Browser.new = some (Value.arr []) :=
  ⟨rfl, rfl, rfl⟩

/-- Claim C3 (code bug): `setExecutable(p)` should make the `executable`
attribute equal `p`, but the source body assigns `this._executable`, a field
distinct from the `executable` the constructor initialises; after the call
`executable` is still null and the path lands in `_executable`.  The
"unset initially" part of the claim does hold. -/
theorem setExecutable_wrong_field_eval :
    Browser.new.executable = none
  ∧ (Browser.new.setExecutable "/usr/bin/chromedriver").executable = none
  ∧ (Browser.new.setExecutable "/usr/bin/chromedriver")._executable
      = some "/usr/bin/chromedriver" :=
  ⟨rfl, rfl, rfl⟩

/-- Claim C1 (code bug): evaluating `addFirstMatch` at the claim's inputs.
The source guard `force || !firstMatch.indexOf(name) === -1` compares a
Boolean against the number `-1`, so it is `force`; with `force` omitted
(source default false) NOTHING is ever appended — after
`addFirstMatch('browserName','chrome')` then
`addFirstMatch('browserName','firefox')` the `firstMatch` sequence is still
empty, not `[{browserName: 'chrome'}]`.  With `force = true` every call
appends unconditionally (duplicate keys allowed). -/
theorem addFirstMatch_defective_guard_eval :
    capFirstMatch (Browser.new.addFirstMatch "browserName" (Value.str "chrome")
        addFirstMatchForceDefault) = some (Value.arr [])
  ∧ capFirstMatch ((Browser.new.addFirstMatch "browserName" (Value.str "chrome")
        addFirstMatchForceDefault).addFirstMatch "browserName" (Value.str "firefox")
        addFirstMatchForceDefault) = some (Value.arr [])
  ∧ capFirstMatch (Browser.new.addFirstMatch "browserName" (Value.str "chrome") true)
      = some (Value.arr [Value.obj [("browserName", Value.str "chrome")]])
  ∧ capFirstMatch ((Browser.new.addFirstMatch "browserName" (Value.str "chrome")
        true).addFirstMatch "browserName" (Value.str "firefox") true)
      = some (Value.arr [Value.obj [("browserName", Value.str "chrome")],
          Value.obj [("browserName", Value.str "firefox")]]) :=
  ⟨rfl, rfl, rfl, rfl⟩

/-- Claim C2 counterexample: on a browser whose recorded executable path
names no existing executable, the base `run` still resolves successfully
(with `undefined`), not with a SpawnFailure — the base class supplies a
defaulted no-op implementation. -/
theorem run_base_noop_counterexample :
    (Browser.new.setExecutable "/nonexistent/driver").run
        { port := some 4444, args := [], env := [], stdio := none }
      = RunResult.resolved Value.undef
  ∧ (Browser.new.setExecutable "/nonexistent/driver").run
        { port := some 4444, args := [], env := [], stdio := none }
      ≠ RunResult.spawnFailure :=
  ⟨rfl, fun h => nomatch h⟩

/-- Claim C2 amended: the base/generic `Browser.run` is a defaulted no-op —
for every browser state (whatever executable was recorded) and every options
object, the returned promise resolves successfully with `undefined`, never
with a SpawnFailure; launching is left entirely to concrete variant
overrides. -/
theorem run_base_always_resolves (b : Browser) (opts : RunOptions) :
    b.run opts = RunResult.resolved Value.undef :=
  rfl

/-- Claim C5: `setRootKey(p, v1)` then `setRootKey(p, v2)`, both with `force`
omitted and hence taking the source default `true`, leaves the root-level
value at `p` equal to `v2` (last write wins for root keys). -/
theorem setRootKey_last_write_wins (b : Browser) (p : String) (v1 v2 : Value) :
    DO.get ((b.setRootKey p v1 setRootKeyForceDefault).setRootKey p v2
        setRootKeyForceDefault).sessionParameters p = some v2 := by
  simp [Browser.setRootKey, setRootKeyForceDefault, get_set_same]

/-- Claim C9 counterexample: a malformed path with an empty segment
(`'a..b'`) raises no error of any kind — `setRootKey` silently builds the
nested structure, storing the value under an empty-string key, and
`setSpecificKey` likewise succeeds on a malformed path. -/
theorem malformed_path_no_error_counterexample :
    (Browser.new.setRootKey "a..b" (Value.num 1) setRootKeyForceDefault).sessionParameters
      = Value.obj [("capabilities",
          Value.obj [("alwaysMatch", Value.obj []), ("firstMatch", Value.arr [])]),
          ("a", Value.obj [("", Value.obj [("b", Value.num 1)])])]
  ∧ (chromeLike.setSpecificKey "x..y" (Value.num 2) setSpecificKeyForceDefault).isOk = true :=
  ⟨rfl, rfl⟩

/-- With the container spine given explicitly, `capAlwaysMatch` is the
`alwaysMatch` field lookup. -/
theorem capAlwaysMatch_spine (b : Browser) (rf cf : List (String × Value))
    (hsp : b.sessionParameters = Value.obj rf)
    (hcaps : objGet rf "capabilities" = some (Value.obj cf)) :
    capAlwaysMatch b = objGet cf "alwaysMatch" := by
  simp [capAlwaysMatch, capFieldsOf, hsp, hcaps, asObj]

/-- With the container spine given explicitly, `capFirstMatch` is the
`firstMatch` field lookup. -/
theorem capFirstMatch_spine (b : Browser) (rf cf : List (String × Value))
    (hsp : b.sessionParameters = Value.obj rf)
    (hcaps : objGet rf "capabilities" = some (Value.obj cf)) :
    capFirstMatch b = objGet cf "firstMatch" := by
  simp [capFirstMatch, capFieldsOf, hsp, hcaps, asObj]

/-- When the container spine exists and the guard passes (`force` or nothing
at `path`), `setAlwaysMatchKey` rewrites the `alwaysMatch` subtree through
`DO.set`. -/
theorem setAlwaysMatchKey_write (b : Browser) (rf cf amF : List (String × Value))
    (p : String) (v : Value) (force : Bool)
    (hsp : b.sessionParameters = Value.obj rf)
    (hcaps : objGet rf "capabilities" = some (Value.obj cf))
    (ham : objGet cf "alwaysMatch" = some (Value.obj amF))
    (hguard : force = true ∨ DO.get (Value.obj amF) p = none) :
    b.setAlwaysMatchKey p v force
      = { b with sessionParameters := Value.obj (objSet rf "capabilities" (Value.obj (objSet cf "alwaysMatch" (DO.set (Value.obj amF) p v)))) } := by
  have hg : (force || (DO.get (Value.obj amF) p).isNone) = true := by
    rcases hguard with hf | hn
    · simp [hf]
    · simp [hn]
  simp [Browser.setAlwaysMatchKey, hsp, hcaps, ham, hg]

/-- When the container spine exists, `force` is false and a value already
sits at `path`, `setAlwaysMatchKey` is a no-op. -/
theorem setAlwaysMatchKey_skip (b : Browser) (rf cf amF : List (String × Value))
    (p : String) (v w : Value)
    (hsp : b.sessionParameters = Value.obj rf)
    (hcaps : objGet rf "capabilities" = some (Value.obj cf))
    (ham : objGet cf "alwaysMatch" = some (Value.obj amF))
    (hw : DO.get (Value.obj amF) p = some w) :
    b.setAlwaysMatchKey p v false = b := by
  simp [Browser.setAlwaysMatchKey, hsp, hcaps, ham, hw]

/-- Claim C4 counterexample: on a variant that already holds the value 5 at
the path (seeded here by an earlier call on a fresh variant),
`setAlwaysMatchKey('a', 1)` followed by `setAlwaysMatchKey('a', 2)` with
`force` omitted/false leaves the pre-existing 5 — not `v1` as the claim
states for every variant. -/
theorem setAlwaysMatchKey_prefilled_counterexample :
    valueAtAM (((Browser.new.setAlwaysMatchKey "a" (Value.num 5)
        setAlwaysMatchKeyForceDefault).setAlwaysMatchKey "a" (Value.num 1)
        setAlwaysMatchKeyForceDefault).setAlwaysMatchKey "a" (Value.num 2)
        setAlwaysMatchKeyForceDefault) "a" = some (Value.num 5)
  ∧ (some (Value.num 5) : Option Value) ≠ some (Value.num 1) :=
  ⟨rfl, fun h => by
    injection h with h1
    injection h1 with h2
    exact absurd h2 (by decide)⟩

/-- Claim C4 amended: on a variant whose document has the container spine
and holds NOTHING yet at `p` under `capabilities.alwaysMatch`,
`setAlwaysMatchKey(p, v1)` followed by `setAlwaysMatchKey(p, v2)` with
`force` omitted/false leaves the value at `p` equal to `v1` (first write
wins), and passing `force = true` on the second call changes it to `v2`. -/
theorem setAlwaysMatchKey_first_write_wins (b : Browser)
    (rf cf amF : List (String × Value)) (p : String) (v1 v2 : Value)
    (hsp : b.sessionParameters = Value.obj rf)
    (hcaps : objGet rf "capabilities" = some (Value.obj cf))
    (ham : objGet cf "alwaysMatch" = some (Value.obj amF))
    (hnone : DO.get (Value.obj amF) p = none) :
    valueAtAM ((b.setAlwaysMatchKey p v1 setAlwaysMatchKeyForceDefault).setAlwaysMatchKey p v2
        setAlwaysMatchKeyForceDefault) p = some v1
  ∧ valueAtAM ((b.setAlwaysMatchKey p v1 setAlwaysMatchKeyForceDefault).setAlwaysMatchKey p v2
        true) p = some v2 := by
  have hb1 := setAlwaysMatchKey_write b rf cf amF p v1 false hsp hcaps ham (Or.inr hnone)
  obtain ⟨am1F, ham1⟩ : ∃ f, DO.set (Value.obj amF) p v1 = Value.obj f := by
    rw [DO.set, splitPath_eq_cons]
    exact setSegs_isObj ..
  have hget1 : DO.get (Value.obj am1F) p = some v1 := ham1 ▸ get_set_same (Value.obj amF) v1 p
  have hsp1 : (b.setAlwaysMatchKey p v1 setAlwaysMatchKeyForceDefault).sessionParameters
      = Value.obj (objSet rf "capabilities" (Value.obj (objSet cf "alwaysMatch" (Value.obj am1F)))) := by
    rw [setAlwaysMatchKeyForceDefault, hb1, ← ham1]
  have hcaps1 : objGet (objSet rf "capabilities" (Value.obj (objSet cf "alwaysMatch" (Value.obj am1F)))) "capabilities"
      = some (Value.obj (objSet cf "alwaysMatch" (Value.obj am1F))) := objGet_objSet_self ..
  have ham1' : objGet (objSet cf "alwaysMatch" (Value.obj am1F)) "alwaysMatch"
      = some (Value.obj am1F) := objGet_objSet_self ..
  have hcam1 : capAlwaysMatch (b.setAlwaysMatchKey p v1 setAlwaysMatchKeyForceDefault)
      = some (Value.obj am1F) := by
    rw [capAlwaysMatch_spine _ _ _ hsp1 hcaps1]
    exact ham1'
  constructor
  · have hno : (b.setAlwaysMatchKey p v1 setAlwaysMatchKeyForceDefault).setAlwaysMatchKey p v2
        setAlwaysMatchKeyForceDefault = b.setAlwaysMatchKey p v1 setAlwaysMatchKeyForceDefault := by
      rw [setAlwaysMatchKeyForceDefault]
      exact setAlwaysMatchKey_skip _ _ _ _ p v2 v1 hsp1 hcaps1 ham1' hget1
    rw [hno]
    simp [valueAtAM, hcam1, hget1]
  · have hb2 := setAlwaysMatchKey_write (b.setAlwaysMatchKey p v1 setAlwaysMatchKeyForceDefault)
      _ _ _ p v2 true hsp1 hcaps1 ham1' (Or.inl rfl)
    have hcam2 : capAlwaysMatch ((b.setAlwaysMatchKey p v1 setAlwaysMatchKeyForceDefault).setAlwaysMatchKey p v2 true)
        = some (DO.set (Value.obj am1F) p v2) := by
      rw [hb2]
      rw [capAlwaysMatch_spine _ _ _ rfl (objGet_objSet_self ..)]
      exact objGet_objSet_self ..
    simp [valueAtAM, hcam2, get_set_same]

/-- Witness for `setAlwaysMatchKey_first_write_wins` on a fresh variant at
path `a.b` with values 1 and 2. -/
theorem setAlwaysMatchKey_first_write_wins_witness :
    (Browser.new.sessionParameters = Value.obj [("capabilities", Value.obj [("alwaysMatch", Value.obj []), ("firstMatch", Value.arr [])])]
  ∧ objGet [("capabilities", Value.obj [("alwaysMatch", Value.obj []), ("firstMatch", Value.arr [])])] "capabilities" = some (Value.obj [("alwaysMatch", Value.obj []), ("firstMatch", Value.arr [])])
  ∧ objGet [("alwaysMatch", Value.obj []), ("firstMatch", Value.arr [])] "alwaysMatch" = some (Value.obj [])
  ∧ DO.get (Value.obj []) "a.b" = none)
  ∧ (valueAtAM ((Browser.new.setAlwaysMatchKey "a.b" (Value.num 1) setAlwaysMatchKeyForceDefault).setAlwaysMatchKey "a.b" (Value.num 2) setAlwaysMatchKeyForceDefault) "a.b" = some (Value.num 1)
  ∧ valueAtAM ((Browser.new.setAlwaysMatchKey "a.b" (Value.num 1) setAlwaysMatchKeyForceDefault).setAlwaysMatchKey "a.b" (Value.num 2) true) "a.b" = some (Value.num 2)) :=
  ⟨⟨rfl, rfl, rfl, rfl⟩,
    setAlwaysMatchKey_first_write_wins Browser.new _ _ _ "a.b" (Value.num 1) (Value.num 2)
      rfl rfl rfl rfl⟩

/-- Claim C6: `setSpecificKey` on a variant with no `specificKey` throws the
ConfigurationError — before any write, so the document is untouched (the
embedding returns the bare error) — while on a variant with a (nonempty)
`specificKey` it never raises it. -/
theorem setSpecificKey_configuration_error (b1 b2 : Browser) (p : String) (v : Value)
    (f : Bool) (sk : String) (h1 : b1.specificKey = none)
    (h2 : b2.specificKey = some sk) (h3 : sk ≠ "") :
    b1.setSpecificKey p v f = Except.error ConfigurationError.vendorSpecificUnsupported
  ∧ ∃ b3, b2.setSpecificKey p v f = Except.ok b3 := by
  constructor
  · simp [Browser.setSpecificKey, h1, jsFalsyKey]
  · simp [Browser.setSpecificKey, h2, jsFalsyKey, h3]
    split <;> exact ⟨_, rfl⟩

/-- Witness for `setSpecificKey_configuration_error`: the fresh base variant
(no `specificKey`) errors, the Chrome-like variant succeeds. -/
theorem setSpecificKey_configuration_error_witness :
    (Browser.new.specificKey = none
  ∧ chromeLike.specificKey = some "chromeOptions"
  ∧ "chromeOptions" ≠ "")
  ∧ (Browser.new.setSpecificKey "prefs.download" (Value.num 1) setSpecificKeyForceDefault
        = Except.error ConfigurationError.vendorSpecificUnsupported
  ∧ ∃ b3, chromeLike.setSpecificKey "prefs.download" (Value.num 1) setSpecificKeyForceDefault
        = Except.ok b3) :=
  ⟨⟨rfl, rfl, by decide⟩,
    setSpecificKey_configuration_error Browser.new chromeLike "prefs.download" (Value.num 1)
      setSpecificKeyForceDefault "chromeOptions" rfl rfl (by decide)⟩

/-- Claim C10: with a non-null `specificKey`, `setSpecificKey(p, v, false)`
decides whether to write by consulting the ROOT-level path
`<specificKey>.<p>`, not the write target
`capabilities.alwaysMatch.<specificKey>.<p>`: when nothing exists at the
root-level path it writes `v` at the target even though a value `w` already
sits there, and when a value exists at the root-level path it leaves the
document unchanged. -/
theorem setSpecificKey_check_write_mismatch (b b2 : Browser) (sk sk2 p p2 : String)
    (v v2 u w : Value)
    (hsk : b.specificKey = some sk) (hne : sk ≠ "")
    (hroot : DO.get b.sessionParameters (sk ++ "." ++ p) = none)
    (htarget : DO.get b.sessionParameters ("capabilities.alwaysMatch." ++ sk ++ "." ++ p)
        = some w)
    (hsk2 : b2.specificKey = some sk2) (hne2 : sk2 ≠ "")
    (hroot2 : DO.get b2.sessionParameters (sk2 ++ "." ++ p2) = some u) :
    (∃ b3, b.setSpecificKey p v false = Except.ok b3
       ∧ b3.sessionParameters
           = DO.set b.sessionParameters ("capabilities.alwaysMatch." ++ sk ++ "." ++ p) v
       ∧ DO.get b3.sessionParameters ("capabilities.alwaysMatch." ++ sk ++ "." ++ p) = some v)
  ∧ b2.setSpecificKey p2 v2 false = Except.ok b2 := by
  constructor
  · have hw : b.setSpecificKey p v false
        = Except.ok { b with sessionParameters := DO.set b.sessionParameters ("capabilities.alwaysMatch." ++ sk ++ "." ++ p) v } := by
      simp [Browser.setSpecificKey, hsk, jsFalsyKey, hne, hroot]
    exact ⟨_, hw, rfl, get_set_same ..⟩
  · simp [Browser.setSpecificKey, hsk2, jsFalsyKey, hne2, hroot2]

/-- A configuration call: one of the four setter operations with its
arguments. -/
inductive ConfigOp where
  | alwaysMatchK : String → Value → Bool → ConfigOp
  | firstMatchA : String → Value → Bool → ConfigOp
  | rootK : String → Value → Bool → ConfigOp
  | specificK : String → Value → Bool → ConfigOp

/-- Apply one configuration call; a thrown ConfigurationError propagates and
leaves the document unchanged. -/
def applyOp (b : Browser) : ConfigOp → Browser
  | .alwaysMatchK p v f => b.setAlwaysMatchKey p v f
  | .firstMatchA n v f => b.addFirstMatch n v f
  | .rootK p v f => b.setRootKey p v f
  | .specificK p v f =>
      match b.setSpecificKey p v f with
      | .ok b2 => b2
      | .error _ => b

/-- A call is safe for the container-kind invariant when it is not a
`setRootKey` whose path addresses `capabilities` or a location under it
(i.e. whose first dot-separated segment is `capabilities`). -/
def opSafe : ConfigOp → Bool
  | .rootK p _ _ => firstSeg p ≠ "capabilities"
  | _ => true

theorem wfBrowser_of_spine (b : Browser) (rf cf amF : List (String × Value))
    (fmL : List Value)
    (hsp : b.sessionParameters = Value.obj rf)
    (hcaps : objGet rf "capabilities" = some (Value.obj cf))
    (ham : objGet cf "alwaysMatch" = some (Value.obj amF))
    (hfm : objGet cf "firstMatch" = some (Value.arr fmL)) :
    wfBrowser b = true := by
  simp [wfBrowser, capAlwaysMatch, capFirstMatch, capFieldsOf, asObj, hsp, hcaps, ham, hfm,
    isObjOpt, isArrOpt]

theorem asObj_inv (v : Value) (f : List (String × Value)) (h : asObj v = some f) :
    v = Value.obj f := by
  cases v with
  | obj g => simp [asObj] at h; rw [h]
  | undef => exact nomatch h
  | null => exact nomatch h
  | bool x => exact nomatch h
  | num x => exact nomatch h
  | str x => exact nomatch h
  | arr x => exact nomatch h

theorem isObjOpt_inv (o : Option Value) (h : isObjOpt o = true) :
    ∃ f, o = some (Value.obj f) := by
  cases o with
  | none => exact nomatch h
  | some v =>
      cases v with
      | obj f => exact ⟨f, rfl⟩
      | undef => exact nomatch h
      | null => exact nomatch h
      | bool x => exact nomatch h
      | num x => exact nomatch h
      | str x => exact nomatch h
      | arr x => exact nomatch h

theorem isArrOpt_inv (o : Option Value) (h : isArrOpt o = true) :
    ∃ l, o = some (Value.arr l) := by
  cases o with
  | none => exact nomatch h
  | some v =>
      cases v with
      | arr l => exact ⟨l, rfl⟩
      | undef => exact nomatch h
      | null => exact nomatch h
      | bool x => exact nomatch h
      | num x => exact nomatch h
      | str x => exact nomatch h
      | obj f => exact nomatch h

theorem capFieldsOf_inv (b : Browser) (cf : List (String × Value))
    (h : capFieldsOf b = some cf) :
    ∃ rf, b.sessionParameters = Value.obj rf
      ∧ objGet rf "capabilities" = some (Value.obj cf) := by
  unfold capFieldsOf at h
  rw [Option.bind_eq_some] at h
  obtain ⟨rf, hrf, hrest⟩ := h
  rw [Option.bind_eq_some] at hrest
  obtain ⟨capsV, hcapsGet, hasObj⟩ := hrest
  exact ⟨rf, asObj_inv _ _ hrf, by rw [hcapsGet, asObj_inv _ _ hasObj]⟩

theorem wfBrowser_inv (b : Browser) (h : wfBrowser b = true) :
    ∃ rf cf amF fmL, b.sessionParameters = Value.obj rf
      ∧ objGet rf "capabilities" = some (Value.obj cf)
      ∧ objGet cf "alwaysMatch" = some (Value.obj amF)
      ∧ objGet cf "firstMatch" = some (Value.arr fmL) := by
  rw [wfBrowser, Bool.and_eq_true] at h
  obtain ⟨h1, h2⟩ := h
  obtain ⟨amF, hcam⟩ := isObjOpt_inv _ h1
  obtain ⟨fmL, hcfm⟩ := isArrOpt_inv _ h2
  rw [capAlwaysMatch, Option.bind_eq_some] at hcam
  obtain ⟨cf, hcf, ham⟩ := hcam
  rw [capFirstMatch, Option.bind_eq_some] at hcfm
  obtain ⟨cf2, hcf2, hfm⟩ := hcfm
  rw [hcf] at hcf2
  injection hcf2 with hcfeq
  subst hcfeq
  obtain ⟨rf, hsp, hcaps⟩ := capFieldsOf_inv b cf hcf
  exact ⟨rf, cf, amF, fmL, hsp, hcaps, ham, hfm⟩


theorem setAlwaysMatchKey_noGuard (b : Browser) (rf cf amF : List (String × Value))
    (p : String) (v : Value) (f : Bool)
    (hsp : b.sessionParameters = Value.obj rf)
    (hcaps : objGet rf "capabilities" = some (Value.obj cf))
    (ham : objGet cf "alwaysMatch" = some (Value.obj amF))
    (hg : (f || (DO.get (Value.obj amF) p).isNone) = false) :
    b.setAlwaysMatchKey p v f = b := by
  simp [Browser.setAlwaysMatchKey, hsp, hcaps, ham, hg]

theorem addFirstMatch_noop (b : Browser) (rf cf : List (String × Value)) (fmL : List Value)
    (n : String) (v : Value)
    (hsp : b.sessionParameters = Value.obj rf)
    (hcaps : objGet rf "capabilities" = some (Value.obj cf))
    (hfm : objGet cf "firstMatch" = some (Value.arr fmL)) :
    b.addFirstMatch n v false = b := by
  simp [Browser.addFirstMatch, hsp, hcaps, hfm, strictEqBoolInt]

theorem addFirstMatch_push (b : Browser) (rf cf : List (String × Value)) (fmL : List Value)
    (n : String) (v : Value)
    (hsp : b.sessionParameters = Value.obj rf)
    (hcaps : objGet rf "capabilities" = some (Value.obj cf))
    (hfm : objGet cf "firstMatch" = some (Value.arr fmL)) :
    b.addFirstMatch n v true
      = { b with sessionParameters := Value.obj (objSet rf "capabilities" (Value.obj (objSet cf "firstMatch" (Value.arr (fmL ++ [Value.obj [(n, v)]]))))) } := by
  simp [Browser.addFirstMatch, hsp, hcaps, hfm]

theorem applyOp_wf (b : Browser) (op : ConfigOp) (hwf : wfBrowser b = true)
    (hsafe : opSafe op = true) : wfBrowser (applyOp b op) = true := by
  obtain ⟨rf, cf, amF, fmL, hsp, hcaps, ham, hfm⟩ := wfBrowser_inv b hwf
  have hamne : ("alwaysMatch" : String) ≠ "firstMatch" := by decide
  have hfmne : ("firstMatch" : String) ≠ "alwaysMatch" := by decide
  cases op with
  | alwaysMatchK p v f =>
      show wfBrowser (b.setAlwaysMatchKey p v f) = true
      rcases hg : (f || (DO.get (Value.obj amF) p).isNone) with _ | _
      · rw [setAlwaysMatchKey_noGuard b rf cf amF p v f hsp hcaps ham hg]
        exact hwf
      · have hor : f = true ∨ DO.get (Value.obj amF) p = none := by
          cases f with
          | true => exact Or.inl rfl
          | false =>
              right
              rw [Bool.false_or] at hg
              exact Option.isNone_iff_eq_none.mp hg
        rw [setAlwaysMatchKey_write b rf cf amF p v f hsp hcaps ham hor]
        obtain ⟨amG, hamG⟩ : ∃ g, DO.set (Value.obj amF) p v = Value.obj g := by
          rw [DO.set, splitPath_eq_cons]
          exact setSegs_isObj ..
        refine wfBrowser_of_spine _ (objSet rf "capabilities" (Value.obj (objSet cf "alwaysMatch" (DO.set (Value.obj amF) p v)))) (objSet cf "alwaysMatch" (DO.set (Value.obj amF) p v)) amG fmL rfl (objGet_objSet_self ..) ?_ ?_
        · rw [hamG]
          exact objGet_objSet_self ..
        · rw [objGet_objSet_ne _ _ _ _ hamne]
          exact hfm
  | firstMatchA n v f =>
      show wfBrowser (b.addFirstMatch n v f) = true
      cases f with
      | false =>
          rw [addFirstMatch_noop b rf cf fmL n v hsp hcaps hfm]
          exact hwf
      | true =>
          rw [addFirstMatch_push b rf cf fmL n v hsp hcaps hfm]
          refine wfBrowser_of_spine _ _ (objSet cf "firstMatch" (Value.arr (fmL ++ [Value.obj [(n, v)]]))) amF (fmL ++ [Value.obj [(n, v)]]) rfl (objGet_objSet_self ..) ?_ ?_
          · rw [objGet_objSet_ne _ _ _ _ hfmne]
            exact ham
          · exact objGet_objSet_self ..
  | rootK p v f =>
      show wfBrowser (b.setRootKey p v f) = true
      have hsafe2 : firstSeg p ≠ "capabilities" := by
        simpa [opSafe] using hsafe
      unfold Browser.setRootKey
      split
      · obtain ⟨y, hy⟩ := setSegs_obj_cons rf (firstSeg p) ((splitSegsAux p.data).2.map String.mk) v
        have hset : DO.set b.sessionParameters p v = Value.obj (objSet rf (firstSeg p) y) := by
          rw [DO.set, splitPath_eq_cons, hsp]
          exact hy
        refine wfBrowser_of_spine _ (objSet rf (firstSeg p) y) cf amF fmL ?_ ?_ ham hfm
        · show DO.set b.sessionParameters p v = _
          exact hset
        · rw [objGet_objSet_ne _ _ _ _ hsafe2]
          exact hcaps
      · exact hwf
  | specificK p v f =>
      show wfBrowser (applyOp b (ConfigOp.specificK p v f)) = true
      rcases hsk : b.specificKey with _ | sk
      · have : applyOp b (ConfigOp.specificK p v f) = b := by
          simp [applyOp, Browser.setSpecificKey, hsk, jsFalsyKey]
        rw [this]
        exact hwf
      · by_cases hke : sk = ""
        · have : applyOp b (ConfigOp.specificK p v f) = b := by
            simp [applyOp, Browser.setSpecificKey, hsk, jsFalsyKey, hke]
          rw [this]
          exact hwf
        · rcases hg : (f || (DO.get b.sessionParameters (sk ++ "." ++ p)).isNone) with _ | _
          · have : applyOp b (ConfigOp.specificK p v f) = b := by
              simp [applyOp, Browser.setSpecificKey, hsk, jsFalsyKey, hke, hg]
            rw [this]
            exact hwf
          · have happ : applyOp b (ConfigOp.specificK p v f)
                = { b with sessionParameters := DO.set b.sessionParameters ("capabilities.alwaysMatch." ++ sk ++ "." ++ p) v } := by
              simp [applyOp, Browser.setSpecificKey, hsk, jsFalsyKey, hke, hg]
            rw [happ]
            have hassoc : "capabilities.alwaysMatch." ++ sk ++ "." ++ p
                = "capabilities.alwaysMatch." ++ (sk ++ "." ++ p) := by
              rw [String.append_assoc "capabilities.alwaysMatch." sk ".",
                  String.append_assoc "capabilities.alwaysMatch." (sk ++ ".") p]
            obtain ⟨k, ks, hks⟩ : ∃ k ks, splitPath (sk ++ "." ++ p) = k :: ks :=
              ⟨_, _, splitPath_eq_cons _⟩
            obtain ⟨amG, hamG⟩ : ∃ g, DO.setSegs (Value.obj amF) (k :: ks) v = Value.obj g :=
              setSegs_isObj ..
            have hset : DO.set b.sessionParameters ("capabilities.alwaysMatch." ++ sk ++ "." ++ p) v
                = Value.obj (objSet rf "capabilities" (Value.obj (objSet cf "alwaysMatch" (Value.obj amG)))) := by
              rw [DO.set, hassoc, splitPath_capsAM, hks, hsp]
              simp [DO.setSegs, hcaps, ham, hamG]
            refine wfBrowser_of_spine _ _ (objSet cf "alwaysMatch" (Value.obj amG)) amG fmL hset (objGet_objSet_self ..) ?_ ?_
            · exact objGet_objSet_self ..
            · rw [objGet_objSet_ne _ _ _ _ hamne]
              exact hfm


/-- Claim C8 counterexample: the invariant is NOT preserved by a `setRootKey`
whose path addresses `capabilities`: at its default `force = true` it
replaces the whole `capabilities` mapping with the given scalar, destroying
both containers (the fresh variant satisfies the invariant beforehand). -/
theorem setRootKey_capabilities_breaks_invariant :
    wfBrowser Browser.new = true
  ∧ wfBrowser (Browser.new.setRootKey "capabilities" (Value.str "gone")
        setRootKeyForceDefault) = false :=
  ⟨rfl, rfl⟩

/-- Claim C8 amended: for every finite sequence of `setAlwaysMatchKey`,
`addFirstMatch`, `setRootKey` and `setSpecificKey` calls with arbitrary
arguments — except that no `setRootKey` path may address `capabilities` or a
location under it — the resulting document still has
`capabilities.alwaysMatch` present as a mapping and `capabilities.firstMatch`
present as a sequence. -/
theorem container_invariant_preserved (ops : List ConfigOp)
    (h : ∀ op ∈ ops, opSafe op = true) :
    wfBrowser (ops.foldl applyOp Browser.new) = true := by
  suffices H : ∀ (l : List ConfigOp) (b : Browser), wfBrowser b = true →
      (∀ op ∈ l, opSafe op = true) → wfBrowser (l.foldl applyOp b) = true by
    exact H ops Browser.new rfl h
  intro l
  induction l with
  | nil =>
      intro b hb _
      simpa using hb
  | cons op rest ih =>
      intro b hb hall
      rw [List.foldl_cons]
      exact ih (applyOp b op) (applyOp_wf b op hb (hall op (List.mem_cons_self ..)))
        (fun o ho => hall o (List.mem_cons_of_mem _ ho))

/-- Witness for `container_invariant_preserved` on a sequence exercising all
four operations. -/
theorem container_invariant_preserved_witness :
    (∀ op ∈ [ConfigOp.rootK "login" (Value.str "x") true,
        ConfigOp.alwaysMatchK "timeouts.implicit" (Value.num 10000) false,
        ConfigOp.firstMatchA "browserName" (Value.str "chrome") true,
        ConfigOp.specificK "w3c" (Value.bool true) true,
        ConfigOp.rootK "pass.capabilities" (Value.num 1) false], opSafe op = true)
  ∧ wfBrowser ([ConfigOp.rootK "login" (Value.str "x") true,
        ConfigOp.alwaysMatchK "timeouts.implicit" (Value.num 10000) false,
        ConfigOp.firstMatchA "browserName" (Value.str "chrome") true,
        ConfigOp.specificK "w3c" (Value.bool true) true,
        ConfigOp.rootK "pass.capabilities" (Value.num 1) false].foldl applyOp Browser.new)
      = true :=
  ⟨by decide, container_invariant_preserved
    [ConfigOp.rootK "login" (Value.str "x") true,
      ConfigOp.alwaysMatchK "timeouts.implicit" (Value.num 10000) false,
      ConfigOp.firstMatchA "browserName" (Value.str "chrome") true,
      ConfigOp.specificK "w3c" (Value.bool true) true,
      ConfigOp.rootK "pass.capabilities" (Value.num 1) false] (by decide)⟩

/-- Witness for `setSpecificKey_check_write_mismatch`: the Chrome-like
variant already holds `chromeOptions.w3c = true` under `alwaysMatch` but has
no root-level `chromeOptions`, so `setSpecificKey('w3c', 9, false)`
overwrites the seeded value; after planting a root-level `chromeOptions.w3c`
the same call is a no-op. -/
theorem setSpecificKey_check_write_mismatch_witness :
    (chromeLike.specificKey = some "chromeOptions"
  ∧ "chromeOptions" ≠ ""
  ∧ DO.get chromeLike.sessionParameters ("chromeOptions" ++ "." ++ "w3c") = none
  ∧ DO.get chromeLike.sessionParameters
        ("capabilities.alwaysMatch." ++ "chromeOptions" ++ "." ++ "w3c") = some (Value.bool true)
  ∧ (chromeLike.setRootKey "chromeOptions.w3c" (Value.num 5) setRootKeyForceDefault).specificKey
        = some "chromeOptions"
  ∧ DO.get (chromeLike.setRootKey "chromeOptions.w3c" (Value.num 5)
        setRootKeyForceDefault).sessionParameters ("chromeOptions" ++ "." ++ "w3c")
        = some (Value.num 5))
  ∧ ((∃ b3, chromeLike.setSpecificKey "w3c" (Value.num 9) false = Except.ok b3
       ∧ b3.sessionParameters
           = DO.set chromeLike.sessionParameters
               ("capabilities.alwaysMatch." ++ "chromeOptions" ++ "." ++ "w3c") (Value.num 9)
       ∧ DO.get b3.sessionParameters
           ("capabilities.alwaysMatch." ++ "chromeOptions" ++ "." ++ "w3c") = some (Value.num 9))
  ∧ (chromeLike.setRootKey "chromeOptions.w3c" (Value.num 5)
        setRootKeyForceDefault).setSpecificKey "w3c" (Value.num 9) false
      = Except.ok (chromeLike.setRootKey "chromeOptions.w3c" (Value.num 5)
          setRootKeyForceDefault)) :=
  ⟨⟨rfl, by decide, rfl, rfl, rfl, rfl⟩,
    setSpecificKey_check_write_mismatch chromeLike
      (chromeLike.setRootKey "chromeOptions.w3c" (Value.num 5) setRootKeyForceDefault)
      "chromeOptions" "chromeOptions" "w3c" "w3c" (Value.num 9) (Value.num 9) (Value.num 5)
      (Value.bool true) rfl (by decide) rfl rfl rfl (by decide) rfl⟩

/-- Claim C9 amended: no path-addressed setter validates the path string —
there is no PathError anywhere in the code.  Even when the path contains an
empty segment, each of the three path-addressed setters accepts the call and
silently writes the value at the malformed path, creating intermediate
mappings keyed by the empty string: `setRootKey` (default `force = true`) on
any variant; `setAlwaysMatchKey` (default `force = false`) on a variant with
the container spine and nothing yet at the path; `setSpecificKey` (default
`force = true`) on a variant with a nonempty `specificKey`, which returns
normally with the value written under
`capabilities.alwaysMatch.<specificKey>.<path>`. -/
theorem malformed_path_silently_written (b ba bs : Browser)
    (rf cf amF : List (String × Value)) (sk p pa ps : String) (v va vs : Value)
    (h : "" ∈ splitPath p) (ha : "" ∈ splitPath pa) (hs : "" ∈ splitPath ps)
    (hsp : ba.sessionParameters = Value.obj rf)
    (hcaps : objGet rf "capabilities" = some (Value.obj cf))
    (ham : objGet cf "alwaysMatch" = some (Value.obj amF))
    (hnone : DO.get (Value.obj amF) pa = none)
    (hsk : bs.specificKey = some sk) (hne : sk ≠ "") :
    DO.get (b.setRootKey p v setRootKeyForceDefault).sessionParameters p = some v
  ∧ valueAtAM (ba.setAlwaysMatchKey pa va setAlwaysMatchKeyForceDefault) pa = some va
  ∧ ∃ b3, bs.setSpecificKey ps vs setSpecificKeyForceDefault = Except.ok b3
       ∧ DO.get b3.sessionParameters ("capabilities.alwaysMatch." ++ sk ++ "." ++ ps) = some vs := by
  refine ⟨?_, ?_, ?_⟩
  · simp [Browser.setRootKey, setRootKeyForceDefault, get_set_same]
  · have hb1 := setAlwaysMatchKey_write ba rf cf amF pa va false hsp hcaps ham (Or.inr hnone)
    have hcam : capAlwaysMatch (ba.setAlwaysMatchKey pa va false)
        = some (DO.set (Value.obj amF) pa va) := by
      rw [hb1]
      rw [capAlwaysMatch_spine _ _ _ rfl (objGet_objSet_self ..)]
      exact objGet_objSet_self ..
    rw [setAlwaysMatchKeyForceDefault]
    simp [valueAtAM, hcam, get_set_same]
  · have hw : bs.setSpecificKey ps vs setSpecificKeyForceDefault
        = Except.ok { bs with sessionParameters := DO.set bs.sessionParameters ("capabilities.alwaysMatch." ++ sk ++ "." ++ ps) vs } := by
      simp [Browser.setSpecificKey, setSpecificKeyForceDefault, hsk, jsFalsyKey, hne]
    exact ⟨_, hw, get_set_same ..⟩

/-- Witness for `malformed_path_silently_written` at the malformed paths
`'a..b'` (`setRootKey` on a fresh variant), `'c..d'` (`setAlwaysMatchKey` on
a fresh variant) and `'x..y'` (`setSpecificKey` on the Chrome-like
variant). -/
theorem malformed_path_silently_written_witness :
    ("" ∈ splitPath "a..b"
  ∧ "" ∈ splitPath "c..d"
  ∧ "" ∈ splitPath "x..y"
  ∧ Browser.new.sessionParameters = Value.obj [("capabilities", Value.obj [("alwaysMatch", Value.obj []), ("firstMatch", Value.arr [])])]
  ∧ objGet [("capabilities", Value.obj [("alwaysMatch", Value.obj []), ("firstMatch", Value.arr [])])] "capabilities" = some (Value.obj [("alwaysMatch", Value.obj []), ("firstMatch", Value.arr [])])
  ∧ objGet [("alwaysMatch", Value.obj []), ("firstMatch", Value.arr [])] "alwaysMatch" = some (Value.obj [])
  ∧ DO.get (Value.obj []) "c..d" = none
  ∧ chromeLike.specificKey = some "chromeOptions"
  ∧ "chromeOptions" ≠ "")
  ∧ (DO.get (Browser.new.setRootKey "a..b" (Value.num 7)
        setRootKeyForceDefault).sessionParameters "a..b" = some (Value.num 7)
  ∧ valueAtAM (Browser.new.setAlwaysMatchKey "c..d" (Value.num 8)
        setAlwaysMatchKeyForceDefault) "c..d" = some (Value.num 8)
  ∧ ∃ b3, chromeLike.setSpecificKey "x..y" (Value.num 2) setSpecificKeyForceDefault
        = Except.ok b3
      ∧ DO.get b3.sessionParameters
          ("capabilities.alwaysMatch." ++ "chromeOptions" ++ "." ++ "x..y") = some (Value.num 2)) :=
  ⟨⟨by decide, by decide, by decide, rfl, rfl, rfl, rfl, rfl, by decide⟩,
    malformed_path_silently_written Browser.new Browser.new chromeLike _ _ _
      "chromeOptions" "a..b" "c..d" "x..y" (Value.num 7) (Value.num 8) (Value.num 2)
      (by decide) (by decide) (by decide) rfl rfl rfl rfl rfl (by decide)⟩

end Webrider
